import Mathlib

/-!
# srsRAN control-plane gateways and notifier decorators

A shallow embedding of

* `apps/gnb/adapters/f1c_gateway_local_connector.cpp`
  (the capture decorator `f1ap_pdu_pcap_notifier` and the gateway
  `f1c_gateway_local_connector`),
* `tests/integrationtests/ngap/ngap_integration_test.cpp`
  (the transport-boundary handler `ngap_network_adapter::on_new_pdu` and the helper
  `generate_ng_setup_request`),
* `tests/unittests/cu_cp/mobility/handover_reconfiguration_routine_test.cpp`
  (the fixture of the handover reconfiguration routine and its three tests), and
* `tests/unittests/e1ap/cu_cp/e1ap_cu_cp_test_helpers.h`
  (the gateway `dummy_cu_cp_e1ap_gateway`).

The C++ code acts on collaborators that live outside these files: the pcap
writer (`dlt_pcap`), the loggers, the ASN.1 codec and the notifiers owned by the
DU and by the CU-CP.  Every call made on such a collaborator is appended to a
call log, in program order, so that "is called", "how often" and "in which
order" become statements about a list.  The codec is a parameter.
-/

namespace srsran

/-! ## Data model -/

/-- The interface `f1ap_message_notifier` together with its implementations.

* `endpoint id` is a notifier implemented outside the file (the DU's or the
  CU-CP's own receiver); `id` tells such objects apart.
* `f1ap_pdu_pcap_notifier decorated pcap_writer logger` is the decorator class of
  the same name, with its three members in constructor order.  The pcap writer
  is referred to by a number (the class holds a `dlt_pcap&`), the logger by the
  name it was fetched with.

A `std::unique_ptr<f1ap_message_notifier>` is modelled by the object it owns; null
pointers are outside the model. -/
inductive f1ap_message_notifier where
  | endpoint (id : Nat)
  | f1ap_pdu_pcap_notifier (decorated : f1ap_message_notifier) (pcap_writer : Nat)
      (logger : String)
deriving DecidableEq

/-- One call made on a collaborator.  `M` is the type of F1AP messages and `B`
the type of byte buffers. -/
inductive call (M B : Type) where
  /-- The virtual call `callee->on_new_message(msg)`. -/
  | on_new_message (callee : f1ap_message_notifier) (msg : M)
  /-- The codec call `msg.pdu.pack(bref)`. -/
  | pack (msg : M)
  /-- The logger call `logger.error(text)`. -/
  | logger_error (logger : String) (text : String)
  /-- The pcap call `pcap_writer.push_pdu(buf)`. -/
  | push_pdu (pcap_writer : Nat) (buf : B)
  /-- The CU-CP call `cu_cp_du_mng->handle_new_du_connection(notifier)`. -/
  | handle_new_du_connection (handler : Nat) (du_rx_pdu_notifier : f1ap_message_notifier)
deriving DecidableEq

/-- The part of the program state outside the objects of the file: what each
pcap writer answers to `is_write_enabled()`, and the calls made so far. -/
structure World (M B : Type) where
  is_write_enabled : Nat → Bool
  calls : List (call M B)

variable {M B : Type}

/-- Appends one call to the log. -/
def World.record (w : World M B) (c : call M B) : World M B :=
  ⟨w.is_write_enabled, w.calls ++ [c]⟩

/-- The environment switches the capture state: every pcap writer now answers
`en` to `is_write_enabled()`.  The call log is kept. -/
def World.set_write_enabled (w : World M B) (en : Nat → Bool) : World M B :=
  ⟨en, w.calls⟩

/-! ## `f1ap_pdu_pcap_notifier` -/

/-- The method `on_new_message` of an `f1ap_message_notifier`
(`f1ap_pdu_pcap_notifier::on_new_message`, lines 31-45, for the decorator).

`pack msg` is the outcome of `msg.pdu.pack(bref)`: `some buf` for
`SRSASN_SUCCESS` with the bytes written to `buf`, `none` for a failure.
Entering the method is itself logged, for every notifier; an `endpoint` does
nothing else that is visible here. -/
def f1ap_message_notifier.on_new_message (pack : M → Option B) :
    f1ap_message_notifier → M → World M B → World M B
  | .endpoint id, msg, w => w.record (.on_new_message (.endpoint id) msg)
  | .f1ap_pdu_pcap_notifier decorated pcap_writer logger, msg, w =>
    let w0 := w.record (.on_new_message (.f1ap_pdu_pcap_notifier decorated pcap_writer logger) msg)
    let w1 :=
      if w0.is_write_enabled pcap_writer then
        match pack msg with
        | none => (w0.record (.pack msg)).record (.logger_error logger "Failed to pack PDU")
        | some buf => (w0.record (.pack msg)).record (.push_pdu pcap_writer buf)
      else w0
    -- Forward message to decorated class.
    decorated.on_new_message pack msg w1

/-! ## `f1c_gateway_local_connector` -/

/-- The interface `srs_cu_cp::cu_cp_f1c_handler`, as far as the connector uses it:
`handle_new_du_connection` takes the notifier of the DU side and returns the
notifier of the CU-CP side.  `id` tells handlers apart in the call log.  The
handler is implemented outside the file; its call is logged, and it is taken
not to switch the pcap writer on or off. -/
structure cu_cp_f1c_handler where
  id : Nat
  handle_new_du_connection : f1ap_message_notifier → f1ap_message_notifier

/-- The class `f1c_gateway_local_connector`: the pcap writer it was constructed
with and the pointer `cu_cp_du_mng`, `none` standing for `nullptr`. -/
structure f1c_gateway_local_connector where
  f1ap_pcap_writer : Nat
  cu_cp_du_mng : Option cu_cp_f1c_handler

/-- The constructor (lines 55-58): it stores the pcap writer; no CU-CP handler is
attached yet. -/
def f1c_gateway_local_connector.construct (f1ap_pcap_writer_ : Nat) :
    f1c_gateway_local_connector :=
  ⟨f1ap_pcap_writer_, none⟩

/-- The method `attach_cu_cp` (lines 60-63): it stores the address of the handler.
The result is an `Except` so that a fatal error could be told from a return; the
body has no failing path. -/
def f1c_gateway_local_connector.attach_cu_cp (gw : f1c_gateway_local_connector)
    (cu_cp_du_mng_ : cu_cp_f1c_handler) : Except String f1c_gateway_local_connector :=
  .ok ⟨gw.f1ap_pcap_writer, some cu_cp_du_mng_⟩

/-- The method `handle_du_connection_request` (lines 65-86).  The first component
of the result is the returned notifier, or the text of the fatal error raised by
`report_fatal_error_if_not`; the second is the world when the call ends. -/
def f1c_gateway_local_connector.handle_du_connection_request
    (gw : f1c_gateway_local_connector) (du_rx_pdu_notifier : f1ap_message_notifier)
    (w : World M B) : Except String f1ap_message_notifier × World M B :=
  match gw.cu_cp_du_mng with
  | none => (.error "CU-CP has not been attached to F1-C gateway.", w)
  | some cu_cp =>
    -- Decorate DU RX notifier with pcap and logging.
    let du_rx_pdu_notifier1 :=
      if w.is_write_enabled gw.f1ap_pcap_writer then
        f1ap_message_notifier.f1ap_pdu_pcap_notifier du_rx_pdu_notifier gw.f1ap_pcap_writer "DU-F1"
      else du_rx_pdu_notifier
    -- Create direct connection between CU-CP and DU notifier.
    let w1 := w.record (.handle_new_du_connection cu_cp.id du_rx_pdu_notifier1)
    let cu_cp_rx_pdu_notifier := cu_cp.handle_new_du_connection du_rx_pdu_notifier1
    -- Decorate CU-CP RX notifier with pcap and logging.
    let cu_cp_rx_pdu_notifier1 :=
      if w1.is_write_enabled gw.f1ap_pcap_writer then
        f1ap_message_notifier.f1ap_pdu_pcap_notifier cu_cp_rx_pdu_notifier gw.f1ap_pcap_writer
          "CU-CP-F1"
      else cu_cp_rx_pdu_notifier
    (.ok cu_cp_rx_pdu_notifier1, w1)

/-! ## `ngap_network_adapter` -/

/-- One call made by `ngap_network_adapter::on_new_pdu` on a collaborator.  `M` is
the type of NGAP messages; notifiers are referred to by a number. -/
inductive ngap_call (M : Type) where
  /-- The logger call `test_logger.error(text)`. -/
  | logger_error (text : String)
  /-- The helper call `send_error_indication(notifier, test_logger)`. -/
  | send_error_indication (notifier : Nat)
  /-- The virtual call `notifier->on_new_message(msg)`. -/
  | on_new_message (notifier : Nat) (msg : M)
deriving DecidableEq

/-- Modelled from the spec: the helper `send_error_indication` of
`lib/ngap/ngap_error_indication_helper.h` is not among the sources.  By the spec
it "synthesizes and sends an error-indication message"; the call is logged with
the notifier it is handed. -/
def send_error_indication (notifier : Nat) (calls : List (ngap_call M)) :
    List (ngap_call M) :=
  calls ++ [.send_error_indication notifier]

/-- The class `ngap_network_adapter`, as far as `on_new_pdu` uses it: the
upper-layer receive notifier stored by `handle_cu_cp_connection_request`. -/
structure ngap_network_adapter where
  rx_pdu_notifier : Nat

/-- The method `ngap_network_adapter::on_new_pdu` (lines 79-90).

`unpack pdu` is the outcome of `msg.pdu.unpack(bref)` on the default-constructed
`msg`: whether the status is `SRSASN_SUCCESS`, and the content of `msg` when the
call ends. -/
def ngap_network_adapter.on_new_pdu (unpack : B → Bool × M) (self : ngap_network_adapter)
    (pdu : B) (calls : List (ngap_call M)) : List (ngap_call M) :=
  let msg := (unpack pdu).2
  let calls1 :=
    if (unpack pdu).1 != true then
      send_error_indication self.rx_pdu_notifier
        (calls ++ [.logger_error "Sending Error Indication. Cause: Could not unpack Rx PDU"])
    else calls
  calls1 ++ [.on_new_message self.rx_pdu_notifier msg]

/-! ## Observations on a call log and test drivers -/

/-- The number of `pack` calls in a log. -/
def nof_pack_calls (cs : List (call M B)) : Nat :=
  cs.countP (fun c => match c with | .pack _ => true | _ => false)

/-- The `push_pdu` calls of a log, in order: the writer and the bytes. -/
def pushed_pdus (cs : List (call M B)) : List (Nat × B) :=
  cs.filterMap (fun c => match c with | .push_pdu p b => some (p, b) | _ => none)

/-- The number of `push_pdu` calls in a log. -/
def nof_push_pdu_calls (cs : List (call M B)) : Nat :=
  (pushed_pdus cs).length

/-- The messages that the notifier `n` received through `on_new_message`, in
order. -/
def received (n : f1ap_message_notifier) (cs : List (call M B)) : List M :=
  cs.filterMap (fun c =>
    match c with
    | .on_new_message callee msg => if callee = n then some msg else none
    | _ => none)

/-- The handlers on which `handle_new_du_connection` was called, with the
notifier passed, in order. -/
def handler_calls (cs : List (call M B)) : List (Nat × f1ap_message_notifier) :=
  cs.filterMap (fun c =>
    match c with
    | .handle_new_du_connection h n => some (h, n)
    | _ => none)

/-- Delivers the messages one after another to the notifier `n`. -/
def deliver_all (pack : M → Option B) (n : f1ap_message_notifier) :
    List M → World M B → World M B
  | [], w => w
  | msg :: rest, w => deliver_all pack n rest (n.on_new_message pack msg w)

/-- Delivers the messages one after another to the notifier `n`; before each
delivery the environment sets the capture state that comes with the message. -/
def deliver_all_under (pack : M → Option B) (n : f1ap_message_notifier) :
    List ((Nat → Bool) × M) → World M B → World M B
  | [], w => w
  | step :: rest, w =>
    deliver_all_under pack n rest (n.on_new_message pack step.2 (w.set_write_enabled step.1))

/-- Nests capture decorators around `base`, one for each (writer, logger) of the
list; the head of the list is the outermost decorator. -/
def decorate : List (Nat × String) → f1ap_message_notifier → f1ap_message_notifier
  | [], base => base
  | layer :: rest, base => .f1ap_pdu_pcap_notifier (decorate rest base) layer.1 layer.2

/-- What the new-connection protocol asks of a bridge, in the words of the spec:
the caller's notifier is handed to the upper-layer handler once, as it is, and
the notifier the handler returns is handed back. -/
def transparent_bridge (cu_cp : cu_cp_f1c_handler) (du_rx_pdu_notifier : f1ap_message_notifier)
    (w : World M B) : Except String f1ap_message_notifier × World M B :=
  (.ok (cu_cp.handle_new_du_connection du_rx_pdu_notifier),
    w.record (.handle_new_du_connection cu_cp.id du_rx_pdu_notifier))

/-! ## Auxiliary definitions -/

/-- The calls of the capture step of the decorator (lines 33-41), given the
capture state `en`. -/
def capture_calls (pack : M → Option B) (en : Nat → Bool) (pcap_writer : Nat)
    (logger : String) (msg : M) : List (call M B) :=
  if en pcap_writer then
    match pack msg with
    | none => [.pack msg, .logger_error logger "Failed to pack PDU"]
    | some buf => [.pack msg, .push_pdu pcap_writer buf]
  else []

/-- The calls that one delivery to `n` adds to the log, given the capture state. -/
def emitted (pack : M → Option B) (en : Nat → Bool) : f1ap_message_notifier → M → List (call M B)
  | .endpoint id, msg => [.on_new_message (.endpoint id) msg]
  | .f1ap_pdu_pcap_notifier d pw lg, msg =>
    .on_new_message (.f1ap_pdu_pcap_notifier d pw lg) msg ::
      (capture_calls pack en pw lg msg ++ emitted pack en d msg)

/-- Nesting depth of a notifier. -/
def depth : f1ap_message_notifier → Nat
  | .endpoint _ => 0
  | .f1ap_pdu_pcap_notifier d _ _ => depth d + 1

/-- The calls that delivering the messages one after another to `n` adds to the
log, under a capture state that stays the same. -/
def emitted_all (pack : M → Option B) (en : Nat → Bool) (n : f1ap_message_notifier) :
    List M → List (call M B)
  | [] => []
  | msg :: rest => emitted pack en n msg ++ emitted_all pack en n rest

/-- The calls that `deliver_all_under` adds to the log. -/
def emitted_all_under (pack : M → Option B) (n : f1ap_message_notifier) :
    List ((Nat → Bool) × M) → List (call M B)
  | [] => []
  | step :: rest => emitted pack step.1 n step.2 ++ emitted_all_under pack n rest

/-- The calls made between the world `before` and the later world `after`. -/
def calls_made (before after : World M B) : List (call M B) :=
  after.calls.drop before.calls.length

/-! ## `handover_reconfiguration_routine` and its test fixture

The routine (`lib/cu_cp/routines/mobility/handover_reconfiguration_routine.cpp`)
and the test doubles (`mobility_test_helpers.h`) are not among the sources; the
fixture `handover_reconfiguration_routine_test` and its three tests are.  An
`async_task<T>` is modelled by `Option T`: `some r` is a task that is ready with
result `r`, `none` a task that is suspended. -/

/-- One call made by the handover routine on a collaborator. -/
inductive ho_call where
  /-- The F1AP call `handle_ue_context_modification_request` on the source side. -/
  | handle_ue_context_modification_request
  /-- The CU-CP call `handle_handover_reconfiguration_sent(target_ue_index,
  transaction_id)`, which starts the wait for the reconfiguration outcome. -/
  | handle_handover_reconfiguration_sent (target_ue_index : Nat) (transaction_id : Nat)
deriving DecidableEq

/-- Modelled from the spec: the double
`dummy_du_processor_rrc_ue_control_message_notifier` is not among the sources.
It holds the transaction id set by `set_transaction_id`, which is the id of the
handover reconfiguration context it hands out ("each sub-procedure's own
transaction id is tracked and exposed"). -/
structure dummy_du_processor_rrc_ue_control_message_notifier where
  transaction_id : Nat

/-- Modelled from the spec: the double `dummy_f1ap_ue_context_manager` is not
among the sources.  It holds the outcome set by
`set_ue_context_modification_outcome` (the field `success` of
`ue_context_outcome_t`). -/
structure dummy_f1ap_ue_context_manager where
  ue_context_modification_outcome : Bool

/-- Modelled from the spec: the double behind the member `cu_cp_handler` of
`mobility_test` is not among the sources.  It holds the outcome set by
`set_rrc_reconfiguration_outcome` and the member `last_transaction_id` that the
tests read, `none` as long as no id was handed to it. -/
structure dummy_cu_cp_handler where
  rrc_reconfiguration_outcome : Bool
  last_transaction_id : Option Nat

/-- The fixture `handover_reconfiguration_routine_test` (lines 21-79), with the
members the tests use: the doubles, the index of the target UE, the task `t`,
and the log of the calls made on the doubles. -/
structure handover_reconfiguration_routine_test where
  source_rrc_ue_notifier : dummy_du_processor_rrc_ue_control_message_notifier
  source_f1ap_ue_ctxt_mng : dummy_f1ap_ue_context_manager
  cu_cp_handler : dummy_cu_cp_handler
  target_ue_index : Nat
  t : Option Bool
  calls : List ho_call

/-- Modelled from the spec: `handle_ue_context_modification_request` of the double
`dummy_f1ap_ue_context_manager`, not among the sources.  The call is logged and
the task is ready at once with the configured outcome. -/
def dummy_f1ap_ue_context_manager.handle_ue_context_modification_request
    (s : handover_reconfiguration_routine_test) :
    Option Bool × handover_reconfiguration_routine_test :=
  (some s.source_f1ap_ue_ctxt_mng.ue_context_modification_outcome,
    { s with calls := s.calls ++ [.handle_ue_context_modification_request] })

/-- Modelled from the spec: `handle_handover_reconfiguration_sent` of the double
behind `cu_cp_handler`, not among the sources.  The call is logged, the id is
stored in `last_transaction_id`, and the task is ready at once with the
configured reconfiguration outcome. -/
def dummy_cu_cp_handler.handle_handover_reconfiguration_sent (target_ue_index : Nat)
    (transaction_id : Nat) (s : handover_reconfiguration_routine_test) :
    Option Bool × handover_reconfiguration_routine_test :=
  (some s.cu_cp_handler.rrc_reconfiguration_outcome,
    { s with
      cu_cp_handler := ⟨s.cu_cp_handler.rrc_reconfiguration_outcome, some transaction_id⟩
      calls := s.calls ++ [.handle_handover_reconfiguration_sent target_ue_index transaction_id] })

/-- Modelled from the spec: the routine `handover_reconfiguration_routine`
(`lib/cu_cp/routines/mobility`), not among the sources.  It follows the words of
the spec, section 4.5: it "launches a reconfiguration-command exchange against
the target context, and upon success launches a context-modification
sub-procedure against the source context; overall success requires both to
succeed, in that order; if the first sub-procedure fails, the second is never
launched and overall result is Failure".  The reconfiguration exchange is the
call `handle_handover_reconfiguration_sent` on the CU-CP handler, with the index
of the target UE and the transaction id of the source UE's RRC notifier; the
context modification is the call `handle_ue_context_modification_request` on
the source F1AP.  An await on a task that is not ready suspends the routine. -/
def handover_reconfiguration_routine (target_ue_index : Nat)
    (s : handover_reconfiguration_routine_test) :
    Option Bool × handover_reconfiguration_routine_test :=
  let transaction_id := s.source_rrc_ue_notifier.transaction_id
  match dummy_cu_cp_handler.handle_handover_reconfiguration_sent target_ue_index
      transaction_id s with
  | (none, s1) => (none, s1)
  | (some reconfiguration_success, s1) =>
    if reconfiguration_success then
      dummy_f1ap_ue_context_manager.handle_ue_context_modification_request s1
    else (some false, s1)

/-- The fixture method `create_ues` (lines 26-39), as far as the doubles go: the
transaction id is set on the source UE's RRC notifier and the reconfiguration
outcome on the CU-CP handler. -/
def handover_reconfiguration_routine_test.create_ues (procedure_outcome : Bool)
    (transaction_id_ : Nat) (s : handover_reconfiguration_routine_test) :
    handover_reconfiguration_routine_test :=
  { s with
    source_rrc_ue_notifier := ⟨transaction_id_⟩
    cu_cp_handler := ⟨procedure_outcome, s.cu_cp_handler.last_transaction_id⟩ }

/-- The fixture method `set_sub_procedure_outcome` (lines 50-53). -/
def handover_reconfiguration_routine_test.set_sub_procedure_outcome (outcome : Bool)
    (s : handover_reconfiguration_routine_test) : handover_reconfiguration_routine_test :=
  { s with source_f1ap_ue_ctxt_mng := ⟨outcome⟩ }

/-- The fixture method `start_procedure` (lines 41-48): the routine is launched
and the task is stored in `t`. -/
def handover_reconfiguration_routine_test.start_procedure
    (s : handover_reconfiguration_routine_test) : handover_reconfiguration_routine_test :=
  let r := handover_reconfiguration_routine s.target_ue_index s
  { r.2 with t := r.1 }

/-- The fixture method `procedure_ready` (line 55). -/
def handover_reconfiguration_routine_test.procedure_ready
    (s : handover_reconfiguration_routine_test) : Bool :=
  s.t.isSome

/-- The fixture method `get_result` (line 57): the result of the task, `none` when
the task is not ready. -/
def handover_reconfiguration_routine_test.get_result
    (s : handover_reconfiguration_routine_test) : Option Bool :=
  s.t

/-- The fixture method `check_transaction_id` (line 59). -/
def handover_reconfiguration_routine_test.check_transaction_id
    (s : handover_reconfiguration_routine_test) (transaction_id : Nat) : Bool :=
  s.cu_cp_handler.last_transaction_id == some transaction_id

/-- The transaction ids handed to the reconfiguration-outcome handler, in order. -/
def handed_transaction_ids (cs : List ho_call) : List Nat :=
  cs.filterMap (fun c =>
    match c with
    | .handle_handover_reconfiguration_sent _ t => some t
    | _ => none)

/-- Modelled from the spec: a fixture as a test body finds it, with the task not
launched and no call made.  The initial values of the doubles are declared
outside the sources; the tests overwrite all of them but `last_transaction_id`,
which is taken to be unset. -/
def handover_reconfiguration_routine_test.construct : handover_reconfiguration_routine_test :=
  ⟨⟨0⟩, ⟨false⟩, ⟨false, none⟩, 1, none, []⟩

/-- The preamble and action shared by the three tests (lines 81-139):
`create_ues`, `set_sub_procedure_outcome`, `start_procedure`, on the fixture `s`. -/
def handover_reconfiguration_routine_test.run (procedure_outcome : Bool) (transaction_id : Nat)
    (sub_procedure_outcome : Bool) (s : handover_reconfiguration_routine_test) :
    handover_reconfiguration_routine_test :=
  ((s.create_ues procedure_outcome transaction_id).set_sub_procedure_outcome
    sub_procedure_outcome).start_procedure

/-- The calls made on the doubles between the fixture `before` and the later
fixture `after`. -/
def ho_calls_made (before after : handover_reconfiguration_routine_test) : List ho_call :=
  after.calls.drop before.calls.length

/-! ## `generate_ng_setup_request`

The NGAP types (`ngap_configuration`, `ngap_ng_setup_request` and their parts) are
declared in headers that are not among the sources; the structures below hold
the members that `generate_ng_setup_request` and the fixture read or write. -/

/-- Modelled from the spec: `s_nssai_t`, declared outside the sources, with the
members `sst` and the optional `sd`. -/
structure s_nssai_t where
  sst : Nat
  sd : Option Nat
deriving DecidableEq

/-- Modelled from the spec: `slice_support_item_t`, declared outside the sources. -/
structure slice_support_item_t where
  s_nssai : s_nssai_t
deriving DecidableEq

/-- Modelled from the spec: `ngap_broadcast_plmn_item`, declared outside the
sources. -/
structure ngap_broadcast_plmn_item where
  plmn_id : String
  tai_slice_support_list : List slice_support_item_t
deriving DecidableEq

/-- Modelled from the spec: `ngap_supported_ta_item`, declared outside the
sources. -/
structure ngap_supported_ta_item where
  tac : Nat
  broadcast_plmn_list : List ngap_broadcast_plmn_item
deriving DecidableEq

/-- Modelled from the spec: the gNB id of the configuration, declared outside the
sources: the id and its bit length (`{411, 22}` in the fixture). -/
structure gnb_id_t where
  id : Nat
  bit_length : Nat
deriving DecidableEq

/-- Modelled from the spec: the global RAN node id of the request, declared
outside the sources. -/
structure cu_cp_global_gnb_id where
  gnb_id : gnb_id_t
  plmn_id : String
deriving DecidableEq

/-- Modelled from the spec: `ngap_ng_setup_request`, declared outside the sources,
with the members that `generate_ng_setup_request` writes. -/
structure ngap_ng_setup_request where
  global_ran_node_id : cu_cp_global_gnb_id
  ran_node_name : String
  supported_ta_list : List ngap_supported_ta_item
  default_paging_drx : Nat
deriving DecidableEq

/-- Modelled from the spec: `ngap_configuration`, declared outside the sources,
with the members that `generate_ng_setup_request` reads. -/
structure ngap_configuration where
  gnb_id : gnb_id_t
  ran_node_name : String
  plmn : String
  tac : Nat
  slice_configurations : List s_nssai_t
deriving DecidableEq

/-- Modelled from the spec: the value of `ngap_ng_setup_request request_msg = {}`
(line 150), the struct being declared outside the sources: the string and the
list are empty, the numbers zero. -/
def ngap_ng_setup_request.value_initialized : ngap_ng_setup_request :=
  ⟨⟨⟨0, 0⟩, ""⟩, "", [], 0⟩

/-- The two locals of `generate_ng_setup_request` when the return statement is
reached (lines 150-181): `request_msg`, which is never written after its
initialisation, and `request`, which is filled from the configuration. -/
def generate_ng_setup_request.locals (ngap_cfg : ngap_configuration) :
    ngap_ng_setup_request × ngap_ng_setup_request :=
  let request_msg := ngap_ng_setup_request.value_initialized
  -- fill supported ta list
  let broadcast_plmn_item : ngap_broadcast_plmn_item :=
    ⟨ngap_cfg.plmn,
      ngap_cfg.slice_configurations.map (fun slice_config => ⟨⟨slice_config.sst, slice_config.sd⟩⟩)⟩
  let supported_ta_item : ngap_supported_ta_item := ⟨ngap_cfg.tac, [broadcast_plmn_item]⟩
  let request : ngap_ng_setup_request :=
    ⟨⟨ngap_cfg.gnb_id, ngap_cfg.plmn⟩, ngap_cfg.ran_node_name, [supported_ta_item], 256⟩
  (request_msg, request)

/-- The function `generate_ng_setup_request` (lines 148-184): `return request_msg;`. -/
def generate_ng_setup_request (ngap_cfg : ngap_configuration) : ngap_ng_setup_request :=
  (generate_ng_setup_request.locals ngap_cfg).1

/-- A request that is filled from the configuration `cfg`: the global RAN node id
carries its gNB id and PLMN, the RAN node name is its name, the supported TA
list has one item with its TAC and one slice-support entry per configured
slice, and the default paging DRX is 256. -/
def filled_from (cfg : ngap_configuration) (request : ngap_ng_setup_request) : Prop :=
  request.global_ran_node_id.gnb_id = cfg.gnb_id
  ∧ request.global_ran_node_id.plmn_id = cfg.plmn
  ∧ request.ran_node_name = cfg.ran_node_name
  ∧ (∃ item, request.supported_ta_list = [item] ∧ item.tac = cfg.tac
      ∧ ∃ plmn_item, item.broadcast_plmn_list = [plmn_item]
        ∧ plmn_item.tai_slice_support_list.length = cfg.slice_configurations.length)
  ∧ request.default_paging_drx = 256

/-- The configuration set up by the fixture `ngap_integration_test` (lines 114-120). -/
def ngap_integration_test.cfg : ngap_configuration :=
  ⟨⟨411, 22⟩, "srsgnb01", "00101", 7, [⟨1, none⟩]⟩

/-! ## `dummy_cu_cp_e1ap_gateway`

The local gateway `e1_test_local_gateway` is declared in a header that is not
among the sources: its state is a type `G`, and its method
`handle_cu_up_connection_request` a parameter that returns the notifier (`none`
for `nullptr`) and the new state.  An E1AP notifier is referred to by a number. -/

/-- The class `dummy_cu_cp_e1ap_gateway` (lines 31-81): the local gateway and the
vector `cu_up_tx_notifiers`. -/
structure dummy_cu_cp_e1ap_gateway (G : Type) where
  local_e1ap_gw : G
  cu_up_tx_notifiers : List Nat

/-- The method `request_new_cu_up_connection` (lines 41-53). -/
def dummy_cu_cp_e1ap_gateway.request_new_cu_up_connection {G : Type}
    (handle_cu_up_connection_request : G → Option Nat × G) (gw : dummy_cu_cp_e1ap_gateway G) :
    dummy_cu_cp_e1ap_gateway G :=
  let r := handle_cu_up_connection_request gw.local_e1ap_gw
  match r.1 with
  | some notifier => ⟨r.2, gw.cu_up_tx_notifiers ++ [notifier]⟩
  | none => ⟨r.2, gw.cu_up_tx_notifiers⟩

/-- The method `remove_cu_up_connection` (lines 55-58).  Erasing at an index that
is not below the size is undefined in C++; the model has no result there. -/
def dummy_cu_cp_e1ap_gateway.remove_cu_up_connection {G : Type} (connection_idx : Nat)
    (gw : dummy_cu_cp_e1ap_gateway G) : Option (dummy_cu_cp_e1ap_gateway G) :=
  if connection_idx < gw.cu_up_tx_notifiers.length then
    some ⟨gw.local_e1ap_gw, gw.cu_up_tx_notifiers.eraseIdx connection_idx⟩
  else none

/-- The method `push_cu_cp_rx_pdu` (lines 69-72): `on_new_message(msg)` is called
on the notifier at the index; the call is appended to the log `delivered` as
the notifier and the message.  Indexing past the size is undefined in C++; the
model has no result there. -/
def dummy_cu_cp_e1ap_gateway.push_cu_cp_rx_pdu {G : Type} (cu_up_connectin_idx : Nat) (msg : M)
    (gw : dummy_cu_cp_e1ap_gateway G) (delivered : List (Nat × M)) : Option (List (Nat × M)) :=
  match gw.cu_up_tx_notifiers[cu_up_connectin_idx]? with
  | some notifier => some (delivered ++ [(notifier, msg)])
  | none => none

/-- The method `nof_connections` (line 74). -/
def dummy_cu_cp_e1ap_gateway.nof_connections {G : Type} (gw : dummy_cu_cp_e1ap_gateway G) :
    Nat :=
  gw.cu_up_tx_notifiers.length

/-! ## Auxiliary lemmas -/

theorem on_new_message_eq (pack : M → Option B) (n : f1ap_message_notifier) (msg : M)
    (w : World M B) :
    n.on_new_message pack msg w
      = ⟨w.is_write_enabled, w.calls ++ emitted pack w.is_write_enabled n msg⟩ := by
  induction n generalizing w with
  | endpoint id => rfl
  | f1ap_pdu_pcap_notifier d pw lg ih =>
    simp only [f1ap_message_notifier.on_new_message, emitted, capture_calls, World.record]
    by_cases h : w.is_write_enabled pw = true
    · cases hp : pack msg <;> simp [h, ih, World.record]
    · simp [h, ih]

theorem received_append (n : f1ap_message_notifier) (xs ys : List (call M B)) :
    received n (xs ++ ys) = received n xs ++ received n ys := by
  simp [received, List.filterMap_append]

theorem received_capture_calls (pack : M → Option B) (en : Nat → Bool)
    (n : f1ap_message_notifier) (pw : Nat) (lg : String) (msg : M) :
    received n (capture_calls pack en pw lg msg) = [] := by
  unfold capture_calls
  by_cases h : en pw = true
  · cases hp : pack msg <;> simp [h, received]
  · simp [h, received]

theorem received_emitted_of_depth_lt (pack : M → Option B) (en : Nat → Bool)
    (n d : f1ap_message_notifier) (msg : M) (h : depth d < depth n) :
    received n (emitted pack en d msg) = [] := by
  induction d with
  | endpoint id =>
    have hne : f1ap_message_notifier.endpoint id ≠ n := by
      intro e
      rw [← e] at h
      simp [depth] at h
    simp [emitted, received, hne]
  | f1ap_pdu_pcap_notifier d pw lg ih =>
    have hne : f1ap_message_notifier.f1ap_pdu_pcap_notifier d pw lg ≠ n := by
      intro e
      rw [← e] at h
      exact Nat.lt_irrefl _ h
    have hd : depth d < depth n := by
      simp only [depth] at h
      omega
    have h1 : received n ([call.on_new_message (.f1ap_pdu_pcap_notifier d pw lg) msg]
        : List (call M B)) = [] := by
      simp [received, hne]
    have : emitted pack en (.f1ap_pdu_pcap_notifier d pw lg) msg
        = [call.on_new_message (.f1ap_pdu_pcap_notifier d pw lg) msg]
          ++ (capture_calls pack en pw lg msg ++ emitted pack en d msg) := rfl
    rw [this, received_append, received_append, h1, received_capture_calls, ih hd]
    rfl

theorem received_emitted_self (pack : M → Option B) (en : Nat → Bool)
    (n : f1ap_message_notifier) (msg : M) :
    received n (emitted pack en n msg) = [msg] := by
  cases n with
  | endpoint id => simp [emitted, received]
  | f1ap_pdu_pcap_notifier d pw lg =>
    have h1 : received (.f1ap_pdu_pcap_notifier d pw lg)
        ([call.on_new_message (.f1ap_pdu_pcap_notifier d pw lg) msg] : List (call M B))
        = [msg] := by
      simp [received]
    have : emitted pack en (.f1ap_pdu_pcap_notifier d pw lg) msg
        = [call.on_new_message (.f1ap_pdu_pcap_notifier d pw lg) msg]
          ++ (capture_calls pack en pw lg msg ++ emitted pack en d msg) := rfl
    rw [this, received_append, received_append, h1, received_capture_calls,
      received_emitted_of_depth_lt pack en _ d msg (by simp [depth])]
    rfl

theorem received_emitted_decorated (pack : M → Option B) (en : Nat → Bool)
    (d : f1ap_message_notifier) (pw : Nat) (lg : String) (msg : M) :
    received d (emitted pack en (.f1ap_pdu_pcap_notifier d pw lg) msg) = [msg] := by
  have hne : f1ap_message_notifier.f1ap_pdu_pcap_notifier d pw lg ≠ d := by
    intro e
    have := congrArg depth e
    simp [depth] at this
  have h1 : received d ([call.on_new_message (.f1ap_pdu_pcap_notifier d pw lg) msg]
      : List (call M B)) = [] := by
    simp [received, hne]
  have : emitted pack en (.f1ap_pdu_pcap_notifier d pw lg) msg
      = [call.on_new_message (.f1ap_pdu_pcap_notifier d pw lg) msg]
        ++ (capture_calls pack en pw lg msg ++ emitted pack en d msg) := rfl
  rw [this, received_append, received_append, h1, received_capture_calls,
    received_emitted_self]
  rfl

theorem calls_made_append (w : World M B) (en : Nat → Bool) (xs : List (call M B)) :
    calls_made w ⟨en, w.calls ++ xs⟩ = xs := by
  simp [calls_made]

theorem deliver_all_eq (pack : M → Option B) (n : f1ap_message_notifier) (msgs : List M)
    (w : World M B) :
    deliver_all pack n msgs w
      = ⟨w.is_write_enabled, w.calls ++ emitted_all pack w.is_write_enabled n msgs⟩ := by
  induction msgs generalizing w with
  | nil => simp [deliver_all, emitted_all]
  | cons m rest ih => simp [deliver_all, emitted_all, ih, on_new_message_eq]

theorem deliver_all_under_calls (pack : M → Option B) (n : f1ap_message_notifier)
    (steps : List ((Nat → Bool) × M)) (w : World M B) :
    (deliver_all_under pack n steps w).calls = w.calls ++ emitted_all_under pack n steps := by
  induction steps generalizing w with
  | nil => simp [deliver_all_under, emitted_all_under]
  | cons s rest ih =>
    simp [deliver_all_under, emitted_all_under, ih, on_new_message_eq, World.set_write_enabled]

theorem pushed_pdus_append (xs ys : List (call M B)) :
    pushed_pdus (xs ++ ys) = pushed_pdus xs ++ pushed_pdus ys := by
  simp [pushed_pdus, List.filterMap_append]

theorem nof_pack_calls_append (xs ys : List (call M B)) :
    nof_pack_calls (xs ++ ys) = nof_pack_calls xs + nof_pack_calls ys := by
  simp [nof_pack_calls, List.countP_append]

theorem nof_push_pdu_calls_append (xs ys : List (call M B)) :
    nof_push_pdu_calls (xs ++ ys) = nof_push_pdu_calls xs + nof_push_pdu_calls ys := by
  simp [nof_push_pdu_calls, pushed_pdus_append]

theorem depth_decorate (layers : List (Nat × String)) (base : f1ap_message_notifier) :
    depth (decorate layers base) = depth base + layers.length := by
  induction layers with
  | nil => simp [decorate]
  | cons l rest ih => simp [decorate, depth, ih]; omega

theorem emitted_decorator (pack : M → Option B) (en : Nat → Bool) (d : f1ap_message_notifier)
    (pw : Nat) (lg : String) (msg : M) :
    emitted pack en (.f1ap_pdu_pcap_notifier d pw lg) msg
      = [call.on_new_message (.f1ap_pdu_pcap_notifier d pw lg) msg]
        ++ (capture_calls pack en pw lg msg ++ emitted pack en d msg) := rfl

theorem received_emitted_decorate (pack : M → Option B) (en : Nat → Bool)
    (layers : List (Nat × String)) (base : f1ap_message_notifier) (msg : M) :
    received base (emitted pack en (decorate layers base) msg) = [msg] := by
  induction layers with
  | nil => exact received_emitted_self pack en base msg
  | cons l rest ih =>
    have hne : f1ap_message_notifier.f1ap_pdu_pcap_notifier (decorate rest base) l.1 l.2 ≠ base := by
      intro e
      have := congrArg depth e
      simp [depth, depth_decorate] at this
      omega
    have h1 : received base
        ([call.on_new_message (.f1ap_pdu_pcap_notifier (decorate rest base) l.1 l.2) msg]
          : List (call M B)) = [] := by
      simp [received, hne]
    rw [decorate, emitted_decorator, received_append, received_append, h1,
      received_capture_calls, ih]
    rfl

theorem nof_push_pdu_calls_emitted_decorate (pack : M → Option B) (en : Nat → Bool)
    (layers : List (Nat × String)) (id : Nat) (msg : M) :
    nof_push_pdu_calls (emitted pack en (decorate layers (.endpoint id)) msg)
      = if (pack msg).isSome then (layers.filter (fun l => en l.1)).length else 0 := by
  induction layers with
  | nil => simp [decorate, emitted, nof_push_pdu_calls, pushed_pdus]
  | cons l rest ih =>
    rw [decorate, emitted_decorator, nof_push_pdu_calls_append, nof_push_pdu_calls_append, ih]
    by_cases hl : en l.1 = true
    · cases hp : pack msg <;>
        simp [capture_calls, hl, hp, nof_push_pdu_calls, pushed_pdus, List.filter_cons]
      omega
    · cases hp : pack msg <;>
        simp [capture_calls, hl, hp, nof_push_pdu_calls, pushed_pdus, List.filter_cons]

/-! ## The capture decorator -/

/-- C1: for every message, every decorated notifier and every state of the pcap
writer (the world `w` and the codec `pack` are arbitrary, so writing may be
disabled, or enabled with packing succeeding or failing),
`f1ap_pdu_pcap_notifier::on_new_message` calls `on_new_message` of the decorated
notifier exactly once, with that same message: the messages the decorated
notifier has received grow by exactly that message. -/
theorem on_new_message_forwards_once (pack : M → Option B) (decorated : f1ap_message_notifier)
    (pcap_writer : Nat) (logger : String) (msg : M) (w : World M B) :
    received decorated
        ((f1ap_message_notifier.f1ap_pdu_pcap_notifier decorated pcap_writer logger).on_new_message
          pack msg w).calls
      = received decorated w.calls ++ [msg] := by
  rw [on_new_message_eq]
  simp only [received_append, received_emitted_decorated]

/-- C2: when the pcap writer reports write disabled,
`f1ap_pdu_pcap_notifier::on_new_message` does nothing but forward the message to
the decorated notifier, whatever that notifier is; and for every sequence of
messages delivered to the decorator (around an endpoint, which neither packs nor
writes) the number of `pack` calls made is zero and the number of `push_pdu`
calls made is zero. -/
theorem no_pack_and_no_push_pdu_when_write_disabled (pack : M → Option B) (id pcap_writer : Nat)
    (logger : String) (msgs : List M) (w : World M B)
    (h : w.is_write_enabled pcap_writer = false) :
    (∀ (decorated : f1ap_message_notifier) (msg : M),
      (f1ap_message_notifier.f1ap_pdu_pcap_notifier decorated pcap_writer logger).on_new_message
          pack msg w
        = decorated.on_new_message pack msg
            (w.record (.on_new_message (.f1ap_pdu_pcap_notifier decorated pcap_writer logger) msg)))
    ∧ nof_pack_calls (calls_made w
        (deliver_all pack (.f1ap_pdu_pcap_notifier (.endpoint id) pcap_writer logger) msgs w)) = 0
    ∧ nof_push_pdu_calls (calls_made w
        (deliver_all pack (.f1ap_pdu_pcap_notifier (.endpoint id) pcap_writer logger) msgs w)) = 0 := by
  refine ⟨?_, ?_⟩
  · intro decorated msg
    simp [f1ap_message_notifier.on_new_message, World.record, h]
  rw [deliver_all_eq, calls_made_append]
  induction msgs with
  | nil => simp [emitted_all, nof_pack_calls, nof_push_pdu_calls, pushed_pdus]
  | cons m rest ih =>
    obtain ⟨ih1, ih2⟩ := ih
    constructor
    · rw [emitted_all, nof_pack_calls_append, ih1]
      simp [emitted, capture_calls, h, nof_pack_calls]
    · rw [emitted_all, nof_push_pdu_calls_append, ih2]
      simp [emitted, capture_calls, h, nof_push_pdu_calls, pushed_pdus]

theorem no_pack_and_no_push_pdu_when_write_disabled_witness :
    (⟨fun _ => false, []⟩ : World Nat (List Nat)).is_write_enabled 0 = false
    ∧ nof_pack_calls (calls_made (⟨fun _ => false, []⟩ : World Nat (List Nat))
        (deliver_all (fun m => some [m]) (.f1ap_pdu_pcap_notifier (.endpoint 1) 0 "DU-F1")
          [10, 20, 30] ⟨fun _ => false, []⟩)) = 0
    ∧ nof_push_pdu_calls (calls_made (⟨fun _ => false, []⟩ : World Nat (List Nat))
        (deliver_all (fun m => some [m]) (.f1ap_pdu_pcap_notifier (.endpoint 1) 0 "DU-F1")
          [10, 20, 30] ⟨fun _ => false, []⟩)) = 0 :=
  ⟨rfl, (no_pack_and_no_push_pdu_when_write_disabled (fun m => some [m]) 1 0 "DU-F1" [10, 20, 30]
    ⟨fun _ => false, []⟩ rfl).2⟩

/-- C3: when the pcap writer reports write enabled, a message delivered to
`f1ap_pdu_pcap_notifier::on_new_message` produces exactly one `push_pdu` call,
carrying its packed bytes, if packing succeeds, and no `push_pdu` call but one
error log if packing fails: these are the calls in the log when the message
is forwarded to the decorated notifier, whatever that notifier is, and around
an endpoint the forward is the only call that follows.  For every sequence of
messages delivered to the decorator (around an endpoint) the writes are the
packed bytes of the messages whose packing succeeds, in order, so that their
number is the number of such messages. -/
theorem one_push_pdu_per_packed_message (pack : M → Option B) (id pcap_writer : Nat)
    (logger : String) (w : World M B) (h : w.is_write_enabled pcap_writer = true) :
    (∀ (decorated : f1ap_message_notifier) (msg : M) (buf : B), pack msg = some buf →
      (f1ap_message_notifier.f1ap_pdu_pcap_notifier decorated pcap_writer logger).on_new_message
          pack msg w
        = decorated.on_new_message pack msg
            ⟨w.is_write_enabled, w.calls ++
              [.on_new_message (.f1ap_pdu_pcap_notifier decorated pcap_writer logger) msg,
               .pack msg, .push_pdu pcap_writer buf]⟩)
    ∧ (∀ (decorated : f1ap_message_notifier) (msg : M), pack msg = none →
      (f1ap_message_notifier.f1ap_pdu_pcap_notifier decorated pcap_writer logger).on_new_message
          pack msg w
        = decorated.on_new_message pack msg
            ⟨w.is_write_enabled, w.calls ++
              [.on_new_message (.f1ap_pdu_pcap_notifier decorated pcap_writer logger) msg,
               .pack msg, .logger_error logger "Failed to pack PDU"]⟩)
    ∧ (∀ msg buf, pack msg = some buf →
      calls_made w ((f1ap_message_notifier.f1ap_pdu_pcap_notifier (.endpoint id) pcap_writer
          logger).on_new_message pack msg w)
        = [.on_new_message (.f1ap_pdu_pcap_notifier (.endpoint id) pcap_writer logger) msg,
           .pack msg, .push_pdu pcap_writer buf, .on_new_message (.endpoint id) msg])
    ∧ (∀ msg, pack msg = none →
      calls_made w ((f1ap_message_notifier.f1ap_pdu_pcap_notifier (.endpoint id) pcap_writer
          logger).on_new_message pack msg w)
        = [.on_new_message (.f1ap_pdu_pcap_notifier (.endpoint id) pcap_writer logger) msg,
           .pack msg, .logger_error logger "Failed to pack PDU",
           .on_new_message (.endpoint id) msg])
    ∧ (∀ msgs : List M,
      pushed_pdus (calls_made w
          (deliver_all pack (.f1ap_pdu_pcap_notifier (.endpoint id) pcap_writer logger) msgs w))
        = msgs.filterMap (fun m => (pack m).map (fun buf => (pcap_writer, buf))))
    ∧ (∀ msgs : List M,
      nof_push_pdu_calls (calls_made w
          (deliver_all pack (.f1ap_pdu_pcap_notifier (.endpoint id) pcap_writer logger) msgs w))
        = (msgs.filter (fun m => (pack m).isSome)).length) := by
  have key : ∀ msgs : List M,
      pushed_pdus (emitted_all pack w.is_write_enabled
          (.f1ap_pdu_pcap_notifier (.endpoint id) pcap_writer logger) msgs)
        = msgs.filterMap (fun m => (pack m).map (fun buf => (pcap_writer, buf))) := by
    intro msgs
    induction msgs with
    | nil => simp [emitted_all, pushed_pdus]
    | cons m rest ih =>
      rw [emitted_all, pushed_pdus_append, ih]
      cases hp : pack m <;>
        simp [emitted, capture_calls, h, hp, pushed_pdus, List.filterMap_cons]
  refine ⟨?_, ?_, ?_, ?_, ?_, ?_⟩
  · intro decorated msg buf hp
    simp [f1ap_message_notifier.on_new_message, World.record, h, hp]
  · intro decorated msg hp
    simp [f1ap_message_notifier.on_new_message, World.record, h, hp]
  · intro msg buf hp
    rw [on_new_message_eq, calls_made_append]
    simp [emitted, capture_calls, h, hp]
  · intro msg hp
    rw [on_new_message_eq, calls_made_append]
    simp [emitted, capture_calls, h, hp]
  · intro msgs
    rw [deliver_all_eq, calls_made_append]
    exact key msgs
  · intro msgs
    rw [deliver_all_eq, calls_made_append, nof_push_pdu_calls, key]
    induction msgs with
    | nil => simp
    | cons m rest ih =>
      cases hp : pack m <;> simp [List.filterMap_cons, List.filter_cons, hp, ih]

theorem one_push_pdu_per_packed_message_witness :
    (⟨fun _ => true, []⟩ : World Nat (List Nat)).is_write_enabled 0 = true
    ∧ pushed_pdus (calls_made (⟨fun _ => true, []⟩ : World Nat (List Nat))
        (deliver_all (fun m => if m % 2 = 0 then some [m, m + 1] else none)
          (.f1ap_pdu_pcap_notifier (.endpoint 1) 0 "DU-F1") [10, 21, 30] ⟨fun _ => true, []⟩))
      = [(0, [10, 11]), (0, [30, 31])] :=
  ⟨rfl, (one_push_pdu_per_packed_message (fun m => if m % 2 = 0 then some [m, m + 1] else none)
    1 0 "DU-F1" ⟨fun _ => true, []⟩ rfl).2.2.2.2.1 [10, 21, 30]⟩

/-! ## The gateway: attachment -/

/-- C4: `handle_du_connection_request` on a connector to which no CU-CP handler
has been attached ends in the fatal error "CU-CP has not been attached to F1-C
gateway.": no notifier is returned and the world is left as it was, so no CU-CP
handler has been called.  Once `attach_cu_cp` has been called, the request
returns a notifier and raises no fatal error. -/
theorem handle_du_connection_request_needs_attach (gw : f1c_gateway_local_connector)
    (cu_cp : cu_cp_f1c_handler) (du_rx_pdu_notifier : f1ap_message_notifier) (w : World M B)
    (h : gw.cu_cp_du_mng = none) :
    gw.handle_du_connection_request du_rx_pdu_notifier w
        = (.error "CU-CP has not been attached to F1-C gateway.", w)
    ∧ handler_calls (calls_made w (gw.handle_du_connection_request du_rx_pdu_notifier w).2) = []
    ∧ (∀ n, (gw.handle_du_connection_request du_rx_pdu_notifier w).1 ≠ .ok n)
    ∧ ∃ gw1 n, gw.attach_cu_cp cu_cp = .ok gw1
        ∧ (gw1.handle_du_connection_request du_rx_pdu_notifier w).1 = .ok n := by
  refine ⟨?_, ?_, ?_, ?_⟩
  · simp [f1c_gateway_local_connector.handle_du_connection_request, h]
  · simp [f1c_gateway_local_connector.handle_du_connection_request, h, calls_made, handler_calls]
  · intro n
    simp [f1c_gateway_local_connector.handle_du_connection_request, h]
  · exact ⟨_, _, rfl, rfl⟩

theorem handle_du_connection_request_needs_attach_witness :
    (f1c_gateway_local_connector.construct 0).cu_cp_du_mng = none
    ∧ (f1c_gateway_local_connector.construct 0).handle_du_connection_request (.endpoint 1)
        (⟨fun _ => true, []⟩ : World Nat (List Nat))
      = (.error "CU-CP has not been attached to F1-C gateway.", ⟨fun _ => true, []⟩) :=
  ⟨rfl, (handle_du_connection_request_needs_attach (f1c_gateway_local_connector.construct 0)
    ⟨5, fun n => n⟩ (.endpoint 1) ⟨fun _ => true, []⟩ rfl).1⟩

/-- C5, as stated, fails: attaching a first handler and then a second one to the
same gateway returns normally both times; the second call raises no fatal
error. -/
theorem attach_cu_cp_twice_returns :
    ∃ gw1 gw2,
      (f1c_gateway_local_connector.construct 0).attach_cu_cp ⟨1, fun n => n⟩ = .ok gw1
      ∧ gw1.attach_cu_cp ⟨2, fun n => n⟩ = .ok gw2
      ∧ ¬ ∃ text, gw1.attach_cu_cp ⟨2, fun n => n⟩ = .error text := by
  refine ⟨_, _, rfl, rfl, ?_⟩
  rintro ⟨text, h⟩
  simp [f1c_gateway_local_connector.attach_cu_cp] at h

/-- C5, amended: calling `attach_cu_cp` a second time on the same gateway is not
an error.  Both calls return, the gateway then points to the handler attached
last, and a later connection request is handed to that handler and to no
other. -/
theorem attach_cu_cp_twice_replaces_handler (gw : f1c_gateway_local_connector)
    (first second : cu_cp_f1c_handler) :
    ∃ gw1 gw2, gw.attach_cu_cp first = .ok gw1
      ∧ gw1.attach_cu_cp second = .ok gw2
      ∧ gw2.cu_cp_du_mng = some second
      ∧ gw2.f1ap_pcap_writer = gw.f1ap_pcap_writer
      ∧ ∀ (du_rx_pdu_notifier : f1ap_message_notifier) (w : World M B),
          (handler_calls (calls_made w
              (gw2.handle_du_connection_request du_rx_pdu_notifier w).2)).map Prod.fst
            = [second.id] := by
  refine ⟨_, _, rfl, rfl, rfl, rfl, ?_⟩
  intro du_rx w
  simp [f1c_gateway_local_connector.handle_du_connection_request, World.record, calls_made,
    handler_calls]

/-! ## The transport boundary of the NGAP adapter -/

/-- C6, evaluated at a buffer whose unpack fails (here every unpack fails and
leaves the content 0 in the message): `ngap_network_adapter::on_new_pdu` logs the
error and sends the error indication, and then still calls `on_new_message` of
the upper-layer receive notifier with the message that could not be decoded. -/
theorem on_new_pdu_delivers_undecodable_message :
    ngap_network_adapter.on_new_pdu (fun _ : List Nat => (false, (0 : Nat))) ⟨7⟩ [255] []
      = [.logger_error "Sending Error Indication. Cause: Could not unpack Rx PDU",
         .send_error_indication 7,
         .on_new_message 7 0] := by
  rfl

/-- Whatever the outcome of unpack, the last call of `on_new_pdu` is the delivery
of the message to the receive notifier: the failure branch does not return. -/
theorem on_new_pdu_ends_with_delivery (unpack : B → Bool × M) (self : ngap_network_adapter)
    (pdu : B) (calls : List (ngap_call M)) :
    (ngap_network_adapter.on_new_pdu unpack self pdu calls).getLast?
      = some (.on_new_message self.rx_pdu_notifier (unpack pdu).2) := by
  simp [ngap_network_adapter.on_new_pdu]

/-! ## The gateway: new connections -/

/-- C7, as stated, fails: with capture enabled at the time of
`handle_du_connection_request`, a message whose packing fails is delivered
through the returned notifier and reaches the handler's notifier, but it is not
captured: the only calls are `pack` and the error log, and no `push_pdu` call is
made.  The same happens in the other direction. -/
theorem message_not_captured_when_packing_fails :
    (⟨fun _ => true, []⟩ : World Nat (List Nat)).is_write_enabled 0 = true
    ∧ ((f1c_gateway_local_connector.mk 0
        (some ⟨5, fun _ => .endpoint 2⟩)).handle_du_connection_request (.endpoint 1)
          (⟨fun _ => true, []⟩ : World Nat (List Nat))).1
        = .ok (.f1ap_pdu_pcap_notifier (.endpoint 2) 0 "CU-CP-F1")
    ∧ ((f1ap_message_notifier.f1ap_pdu_pcap_notifier (.endpoint 2) 0 "CU-CP-F1").on_new_message
          (fun _ : Nat => (none : Option (List Nat))) 7 ⟨fun _ => true, []⟩).calls
        = [.on_new_message (.f1ap_pdu_pcap_notifier (.endpoint 2) 0 "CU-CP-F1") 7, .pack 7,
           .logger_error "CU-CP-F1" "Failed to pack PDU", .on_new_message (.endpoint 2) 7]
    ∧ pushed_pdus
        ((f1ap_message_notifier.f1ap_pdu_pcap_notifier (.endpoint 2) 0 "CU-CP-F1").on_new_message
          (fun _ : Nat => (none : Option (List Nat))) 7 ⟨fun _ => true, []⟩).calls = []
    ∧ pushed_pdus
        ((f1ap_message_notifier.f1ap_pdu_pcap_notifier (.endpoint 1) 0 "DU-F1").on_new_message
          (fun _ : Nat => (none : Option (List Nat))) 7 ⟨fun _ => true, []⟩).calls = [] := by
  refine ⟨rfl, rfl, rfl, rfl, rfl⟩

/-- C7, amended: when capture is enabled at the time of
`handle_du_connection_request`, the CU-CP handler is handed the caller's notifier
wrapped in a capture decorator ("DU-F1") and the returned notifier is the
handler's notifier wrapped in a capture decorator ("CU-CP-F1"), both bound to
the gateway's pcap writer.  A message delivered through the returned notifier
passes through the capture step and then reaches the handler's notifier,
exactly once.  It is captured when writing is still enabled at the delivery and
its packing succeeds: the `pack` and `push_pdu` calls are then in the log when
the handler's notifier is called.  When its packing fails the error is logged
and nothing is written, and when writing is disabled at the delivery nothing is
packed or written; the message is forwarded all the same.  The same holds for a
message that the CU-CP sends through the notifier it was handed, which reaches
the caller's original `du_rx_pdu_notifier`. -/
theorem handle_du_connection_request_decorates_both_directions (pack : M → Option B)
    (gw : f1c_gateway_local_connector) (cu_cp : cu_cp_f1c_handler)
    (du_rx_pdu_notifier : f1ap_message_notifier) (w : World M B)
    (hatt : gw.cu_cp_du_mng = some cu_cp)
    (hen : w.is_write_enabled gw.f1ap_pcap_writer = true) :
    let du_side := f1ap_message_notifier.f1ap_pdu_pcap_notifier du_rx_pdu_notifier
      gw.f1ap_pcap_writer "DU-F1"
    let cu_cp_side := cu_cp.handle_new_du_connection du_side
    let returned := f1ap_message_notifier.f1ap_pdu_pcap_notifier cu_cp_side
      gw.f1ap_pcap_writer "CU-CP-F1"
    gw.handle_du_connection_request du_rx_pdu_notifier w
        = (.ok returned, w.record (.handle_new_du_connection cu_cp.id du_side))
    ∧ (∀ (msg : M) (w1 : World M B),
        received cu_cp_side (calls_made w1 (returned.on_new_message pack msg w1)) = [msg])
    ∧ (∀ (msg : M) (buf : B) (w1 : World M B),
        w1.is_write_enabled gw.f1ap_pcap_writer = true → pack msg = some buf →
        returned.on_new_message pack msg w1
          = cu_cp_side.on_new_message pack msg
              ⟨w1.is_write_enabled, w1.calls ++ [.on_new_message returned msg, .pack msg,
                .push_pdu gw.f1ap_pcap_writer buf]⟩)
    ∧ (∀ (msg : M) (w1 : World M B),
        received du_rx_pdu_notifier (calls_made w1 (du_side.on_new_message pack msg w1)) = [msg])
    ∧ (∀ (msg : M) (buf : B) (w1 : World M B),
        w1.is_write_enabled gw.f1ap_pcap_writer = true → pack msg = some buf →
        du_side.on_new_message pack msg w1
          = du_rx_pdu_notifier.on_new_message pack msg
              ⟨w1.is_write_enabled, w1.calls ++ [.on_new_message du_side msg, .pack msg,
                .push_pdu gw.f1ap_pcap_writer buf]⟩)
    ∧ (∀ (msg : M) (w1 : World M B),
        w1.is_write_enabled gw.f1ap_pcap_writer = true → pack msg = none →
        returned.on_new_message pack msg w1
          = cu_cp_side.on_new_message pack msg
              ⟨w1.is_write_enabled, w1.calls ++ [.on_new_message returned msg, .pack msg,
                .logger_error "CU-CP-F1" "Failed to pack PDU"]⟩)
    ∧ (∀ (msg : M) (w1 : World M B),
        w1.is_write_enabled gw.f1ap_pcap_writer = false →
        returned.on_new_message pack msg w1
          = cu_cp_side.on_new_message pack msg
              ⟨w1.is_write_enabled, w1.calls ++ [.on_new_message returned msg]⟩)
    ∧ (∀ (msg : M) (w1 : World M B),
        w1.is_write_enabled gw.f1ap_pcap_writer = true → pack msg = none →
        du_side.on_new_message pack msg w1
          = du_rx_pdu_notifier.on_new_message pack msg
              ⟨w1.is_write_enabled, w1.calls ++ [.on_new_message du_side msg, .pack msg,
                .logger_error "DU-F1" "Failed to pack PDU"]⟩)
    ∧ (∀ (msg : M) (w1 : World M B),
        w1.is_write_enabled gw.f1ap_pcap_writer = false →
        du_side.on_new_message pack msg w1
          = du_rx_pdu_notifier.on_new_message pack msg
              ⟨w1.is_write_enabled, w1.calls ++ [.on_new_message du_side msg]⟩) := by
  intro du_side cu_cp_side returned
  refine ⟨?_, ?_, ?_, ?_, ?_, ?_, ?_, ?_, ?_⟩
  · simp [f1c_gateway_local_connector.handle_du_connection_request, hatt, hen, World.record,
      returned, cu_cp_side, du_side]
  · intro msg w1
    rw [on_new_message_eq, calls_made_append]
    exact received_emitted_decorated pack _ _ _ _ msg
  · intro msg buf w1 h1 hp
    simp [returned, f1ap_message_notifier.on_new_message, World.record, h1, hp]
  · intro msg w1
    rw [on_new_message_eq, calls_made_append]
    exact received_emitted_decorated pack _ _ _ _ msg
  · intro msg buf w1 h1 hp
    simp [du_side, f1ap_message_notifier.on_new_message, World.record, h1, hp]
  · intro msg w1 h1 hp
    simp [returned, f1ap_message_notifier.on_new_message, World.record, h1, hp]
  · intro msg w1 h1
    simp [returned, f1ap_message_notifier.on_new_message, World.record, h1]
  · intro msg w1 h1 hp
    simp [du_side, f1ap_message_notifier.on_new_message, World.record, h1, hp]
  · intro msg w1 h1
    simp [du_side, f1ap_message_notifier.on_new_message, World.record, h1]

theorem handle_du_connection_request_decorates_both_directions_witness :
    (f1c_gateway_local_connector.mk 0 (some ⟨5, fun _ => .endpoint 2⟩)).cu_cp_du_mng
        = some ⟨5, fun _ => .endpoint 2⟩
    ∧ (⟨fun _ => true, []⟩ : World Nat (List Nat)).is_write_enabled 0 = true
    ∧ (f1c_gateway_local_connector.mk 0 (some ⟨5, fun _ => .endpoint 2⟩)).handle_du_connection_request
        (.endpoint 1) (⟨fun _ => true, []⟩ : World Nat (List Nat))
      = (.ok (.f1ap_pdu_pcap_notifier (.endpoint 2) 0 "CU-CP-F1"),
          ⟨fun _ => true,
            [.handle_new_du_connection 5 (.f1ap_pdu_pcap_notifier (.endpoint 1) 0 "DU-F1")]⟩) :=
  ⟨rfl, rfl, (handle_du_connection_request_decorates_both_directions
    (fun m : Nat => some [m]) (f1c_gateway_local_connector.mk 0 (some ⟨5, fun _ => .endpoint 2⟩))
    ⟨5, fun _ => .endpoint 2⟩ (.endpoint 1) ⟨fun _ => true, []⟩ rfl rfl).1⟩

/-- C8: when capture is disabled, `handle_du_connection_request` is the transparent
bridge of the new-connection protocol: it calls `handle_new_du_connection` of
the attached CU-CP handler exactly once, passing the caller's notifier as it is,
and returns exactly the notifier that the handler returned. -/
theorem handle_du_connection_request_is_transparent_bridge (gw : f1c_gateway_local_connector)
    (cu_cp : cu_cp_f1c_handler) (du_rx_pdu_notifier : f1ap_message_notifier) (w : World M B)
    (hatt : gw.cu_cp_du_mng = some cu_cp)
    (hdis : w.is_write_enabled gw.f1ap_pcap_writer = false) :
    gw.handle_du_connection_request du_rx_pdu_notifier w
        = transparent_bridge cu_cp du_rx_pdu_notifier w
    ∧ handler_calls (calls_made w (gw.handle_du_connection_request du_rx_pdu_notifier w).2)
        = [(cu_cp.id, du_rx_pdu_notifier)]
    ∧ (gw.handle_du_connection_request du_rx_pdu_notifier w).1
        = .ok (cu_cp.handle_new_du_connection du_rx_pdu_notifier) := by
  refine ⟨?_, ?_, ?_⟩
  · simp [f1c_gateway_local_connector.handle_du_connection_request, hatt, hdis, World.record,
      transparent_bridge]
  · simp [f1c_gateway_local_connector.handle_du_connection_request, hatt, hdis, World.record,
      calls_made, handler_calls]
  · simp [f1c_gateway_local_connector.handle_du_connection_request, hatt, hdis, World.record]

theorem handle_du_connection_request_is_transparent_bridge_witness :
    (f1c_gateway_local_connector.mk 0 (some ⟨5, fun _ => .endpoint 2⟩)).cu_cp_du_mng
        = some ⟨5, fun _ => .endpoint 2⟩
    ∧ (⟨fun _ => false, []⟩ : World Nat (List Nat)).is_write_enabled 0 = false
    ∧ ((f1c_gateway_local_connector.mk 0 (some ⟨5, fun _ => .endpoint 2⟩)).handle_du_connection_request
        (.endpoint 1) (⟨fun _ => false, []⟩ : World Nat (List Nat))).1
      = .ok (.endpoint 2)
    ∧ handler_calls (calls_made (⟨fun _ => false, []⟩ : World Nat (List Nat))
        ((f1c_gateway_local_connector.mk 0
          (some ⟨5, fun _ => .endpoint 2⟩)).handle_du_connection_request
            (.endpoint 1) (⟨fun _ => false, []⟩ : World Nat (List Nat))).2)
      = [(5, .endpoint 1)] :=
  ⟨rfl, rfl,
    (handle_du_connection_request_is_transparent_bridge
      (f1c_gateway_local_connector.mk 0 (some ⟨5, fun _ => .endpoint 2⟩))
      ⟨5, fun _ => .endpoint 2⟩ (.endpoint 1) (⟨fun _ => false, []⟩ : World Nat (List Nat))
      rfl rfl).2.2,
    (handle_du_connection_request_is_transparent_bridge
      (f1c_gateway_local_connector.mk 0 (some ⟨5, fun _ => .endpoint 2⟩))
      ⟨5, fun _ => .endpoint 2⟩ (.endpoint 1) (⟨fun _ => false, []⟩ : World Nat (List Nat))
      rfl rfl).2.1⟩

/-! ## Order of delivery and composition of decorators -/

/-- C9: for any sequence of N messages delivered one after another to a
capture-decorated notifier, whatever the capture state set before each delivery
and whatever the packing outcome of each message, the wrapped notifier receives
exactly those N messages, in the same order: none is lost, duplicated or
reordered. -/
theorem capture_decorator_preserves_sequence (pack : M → Option B)
    (decorated : f1ap_message_notifier) (pcap_writer : Nat) (logger : String)
    (steps : List ((Nat → Bool) × M)) (w : World M B) :
    received decorated (calls_made w
        (deliver_all_under pack (.f1ap_pdu_pcap_notifier decorated pcap_writer logger) steps w))
      = steps.map Prod.snd := by
  have key : received decorated
      (emitted_all_under pack (.f1ap_pdu_pcap_notifier decorated pcap_writer logger) steps)
        = steps.map Prod.snd := by
    induction steps with
    | nil => simp [emitted_all_under, received]
    | cons s rest ih =>
      rw [emitted_all_under, received_append, received_emitted_decorated, ih]
      rfl
  simp only [calls_made, deliver_all_under_calls, List.drop_left]
  exact key

/-- C10: for every chain of k >= 0 capture decorators nested around a base
notifier (each with its own writer and logger), a message delivered to the
outermost decorator reaches the base notifier exactly once, whatever k and
whatever the capture state.  Only the number of writes depends on the chain:
around an endpoint it is the number of decorators whose writer is enabled when
packing succeeds, and zero when it fails; so k decorators on one enabled writer
make k writes. -/
theorem decorators_compose_transparently (pack : M → Option B)
    (layers : List (Nat × String)) (base : f1ap_message_notifier) (msg : M) (w : World M B) :
    received base (calls_made w ((decorate layers base).on_new_message pack msg w)) = [msg]
    ∧ (∀ id : Nat,
        nof_push_pdu_calls (calls_made w
            ((decorate layers (.endpoint id)).on_new_message pack msg w))
          = if (pack msg).isSome
            then (layers.filter (fun l => w.is_write_enabled l.1)).length else 0)
    ∧ (∀ (id k pcap_writer : Nat) (logger : String),
        w.is_write_enabled pcap_writer = true → (pack msg).isSome = true →
        nof_push_pdu_calls (calls_made w
            ((decorate (List.replicate k (pcap_writer, logger)) (.endpoint id)).on_new_message
              pack msg w)) = k) := by
  refine ⟨?_, ?_, ?_⟩
  · rw [on_new_message_eq, calls_made_append]
    exact received_emitted_decorate pack _ layers base msg
  · intro id
    rw [on_new_message_eq, calls_made_append]
    exact nof_push_pdu_calls_emitted_decorate pack _ layers id msg
  · intro id k pw lg hen hp
    rw [on_new_message_eq, calls_made_append, nof_push_pdu_calls_emitted_decorate, if_pos hp]
    have : List.filter (fun l : Nat × String => w.is_write_enabled l.1)
        (List.replicate k (pw, lg)) = List.replicate k (pw, lg) := by
      rw [List.filter_eq_self]
      intro a ha
      rw [List.eq_of_mem_replicate ha]
      exact hen
    rw [this, List.length_replicate]

/-! ## The handover reconfiguration routine -/

theorem run_eq (procedure_outcome : Bool) (transaction_id : Nat) (sub_procedure_outcome : Bool)
    (s : handover_reconfiguration_routine_test) :
    s.run procedure_outcome transaction_id sub_procedure_outcome
      = if procedure_outcome then
          ⟨⟨transaction_id⟩, ⟨sub_procedure_outcome⟩, ⟨true, some transaction_id⟩,
            s.target_ue_index, some sub_procedure_outcome,
            s.calls ++ [.handle_handover_reconfiguration_sent s.target_ue_index transaction_id,
              .handle_ue_context_modification_request]⟩
        else
          ⟨⟨transaction_id⟩, ⟨sub_procedure_outcome⟩, ⟨false, some transaction_id⟩,
            s.target_ue_index, some false,
            s.calls ++ [.handle_handover_reconfiguration_sent s.target_ue_index transaction_id]⟩ := by
  cases procedure_outcome <;>
    simp [handover_reconfiguration_routine_test.run,
      handover_reconfiguration_routine_test.start_procedure,
      handover_reconfiguration_routine_test.set_sub_procedure_outcome,
      handover_reconfiguration_routine_test.create_ues, handover_reconfiguration_routine,
      dummy_f1ap_ue_context_manager.handle_ue_context_modification_request,
      dummy_cu_cp_handler.handle_handover_reconfiguration_sent]

/-- The assertions of the first and of the third test of the fixture hold on the
modelled routine: id 99 with both outcomes successful, id 17 with only the
reconfiguration failing. -/
theorem first_and_third_test_pass :
    ((handover_reconfiguration_routine_test.construct.run true 99 true).procedure_ready = true
      ∧ (handover_reconfiguration_routine_test.construct.run true 99 true).get_result = some true
      ∧ (handover_reconfiguration_routine_test.construct.run true 99 true).check_transaction_id 99
          = true)
    ∧ ((handover_reconfiguration_routine_test.construct.run false 17 true).procedure_ready = true
      ∧ (handover_reconfiguration_routine_test.construct.run false 17 true).get_result
          = some false
      ∧ (handover_reconfiguration_routine_test.construct.run false 17 true).check_transaction_id
          17 = true) := by
  decide

/-- C12: for every combination of the RRC reconfiguration outcome and the UE
context modification outcome supplied by the doubles (and every transaction id
and earlier state of the fixture), the routine is ready right after the launch,
and its result is true exactly when both outcomes are successful. -/
theorem routine_ready_with_conjunction_of_outcomes (s : handover_reconfiguration_routine_test)
    (procedure_outcome sub_procedure_outcome : Bool) (transaction_id : Nat) :
    (s.run procedure_outcome transaction_id sub_procedure_outcome).procedure_ready = true
    ∧ (s.run procedure_outcome transaction_id sub_procedure_outcome).get_result
        = some (procedure_outcome && sub_procedure_outcome)
    ∧ ((s.run procedure_outcome transaction_id sub_procedure_outcome).get_result = some true
        ↔ procedure_outcome = true ∧ sub_procedure_outcome = true) := by
  rw [run_eq]
  cases sub_procedure_outcome <;> cases procedure_outcome <;>
    simp [handover_reconfiguration_routine_test.procedure_ready,
      handover_reconfiguration_routine_test.get_result]

/-- On the modelled routine the id of the source UE's RRC notifier is handed to the
CU-CP handler in every run, also when the UE context modification is configured
to fail, whatever the earlier state of the fixture. -/
theorem transaction_id_handed_in_every_run (s : handover_reconfiguration_routine_test)
    (procedure_outcome sub_procedure_outcome : Bool) (transaction_id : Nat) :
    handed_transaction_ids
        (ho_calls_made s (s.run procedure_outcome transaction_id sub_procedure_outcome))
      = [transaction_id]
    ∧ (s.run procedure_outcome transaction_id sub_procedure_outcome).check_transaction_id
        transaction_id = true := by
  rw [run_eq]
  cases procedure_outcome <;>
    simp [ho_calls_made, handed_transaction_ids,
      handover_reconfiguration_routine_test.check_transaction_id]

/-- C14: for every transaction id t configured on the source UE's RRC notifier,
when the UE context modification succeeds the routine hands exactly t, once, to
the reconfiguration-outcome handler, whether the reconfiguration then succeeds
or fails, and whatever id an earlier routine left behind; of two routines run
one after the other each hands its own id. -/
theorem routine_hands_its_own_transaction_id (s : handover_reconfiguration_routine_test)
    (procedure_outcome : Bool) (transaction_id : Nat) :
    handed_transaction_ids (ho_calls_made s (s.run procedure_outcome transaction_id true))
        = [transaction_id]
    ∧ (s.run procedure_outcome transaction_id true).cu_cp_handler.last_transaction_id
        = some transaction_id
    ∧ (s.run procedure_outcome transaction_id true).check_transaction_id transaction_id = true
    ∧ (∀ (other_outcome : Bool) (other_id : Nat),
        handed_transaction_ids
            (ho_calls_made s
              ((s.run procedure_outcome transaction_id true).run other_outcome other_id true))
          = [transaction_id, other_id]
        ∧ handed_transaction_ids
            (ho_calls_made (s.run procedure_outcome transaction_id true)
              ((s.run procedure_outcome transaction_id true).run other_outcome other_id true))
          = [other_id]) := by
  refine ⟨?_, ?_, ?_, ?_⟩
  · rw [run_eq]
    cases procedure_outcome <;> simp [ho_calls_made, handed_transaction_ids]
  · rw [run_eq]
    cases procedure_outcome <;> simp
  · rw [run_eq]
    cases procedure_outcome <;>
      simp [handover_reconfiguration_routine_test.check_transaction_id]
  · intro other_outcome other_id
    rw [run_eq, run_eq]
    cases procedure_outcome <;> cases other_outcome <;>
      simp [ho_calls_made, handed_transaction_ids]

/-! ## The NG setup request of the integration test -/

/-- C15, evaluated at the configuration of the fixture: `generate_ng_setup_request`
returns the request that was value-initialised at line 150, with an empty RAN
node name and an empty supported TA list; it is not filled from the
configuration. -/
theorem generate_ng_setup_request_returns_unfilled_request :
    generate_ng_setup_request ngap_integration_test.cfg
        = ngap_ng_setup_request.value_initialized
    ∧ (generate_ng_setup_request ngap_integration_test.cfg).ran_node_name = ""
    ∧ (generate_ng_setup_request ngap_integration_test.cfg).supported_ta_list = []
    ∧ ¬ filled_from ngap_integration_test.cfg
        (generate_ng_setup_request ngap_integration_test.cfg) := by
  refine ⟨rfl, rfl, rfl, ?_⟩
  intro h
  have h3 := h.2.2.1
  revert h3
  decide

/-- The local `request` of `generate_ng_setup_request`, which is not the one
returned, is filled from the configuration. -/
theorem generate_ng_setup_request_fills_local_request (cfg : ngap_configuration) :
    filled_from cfg (generate_ng_setup_request.locals cfg).2 := by
  refine ⟨rfl, rfl, rfl, ⟨_, rfl, rfl, _, rfl, ?_⟩, rfl⟩
  simp

/-! ## Capture is fixed at the connection request -/

theorem no_capture_calls_emitted_all_under_endpoint (pack : M → Option B) (id : Nat)
    (steps : List ((Nat → Bool) × M)) :
    nof_pack_calls (emitted_all_under pack (.endpoint id) steps) = 0
    ∧ nof_push_pdu_calls (emitted_all_under pack (.endpoint id) steps) = 0 := by
  induction steps with
  | nil => simp [emitted_all_under, nof_pack_calls, nof_push_pdu_calls, pushed_pdus]
  | cons st rest ih =>
    obtain ⟨ih1, ih2⟩ := ih
    constructor
    · rw [emitted_all_under, nof_pack_calls_append, ih1]
      simp [emitted, nof_pack_calls]
    · rw [emitted_all_under, nof_push_pdu_calls_append, ih2]
      simp [emitted, nof_push_pdu_calls, pushed_pdus]

/-- C16: whether a connection is captured is fixed when it is requested.  If the
pcap writer reports write disabled during `handle_du_connection_request`, the
CU-CP handler is handed the caller's notifier as it is and the handler's
notifier is returned as it is: neither direction is decorated.  With the
caller's and the handler's notifiers being endpoints, no message delivered
afterwards in either direction is packed or written to the pcap, whatever the
capture state set before each delivery. -/
theorem capture_fixed_at_connection_request (pack : M → Option B)
    (gw : f1c_gateway_local_connector) (cu_cp : cu_cp_f1c_handler) (du cu : Nat) (w : World M B)
    (hatt : gw.cu_cp_du_mng = some cu_cp)
    (hdis : w.is_write_enabled gw.f1ap_pcap_writer = false)
    (hcu : cu_cp.handle_new_du_connection (.endpoint du) = .endpoint cu) :
    ∃ returned handed,
      (gw.handle_du_connection_request (.endpoint du) w).1 = .ok returned
      ∧ handler_calls (calls_made w (gw.handle_du_connection_request (.endpoint du) w).2)
          = [(cu_cp.id, handed)]
      ∧ returned = .endpoint cu ∧ handed = .endpoint du
      ∧ ∀ (steps : List ((Nat → Bool) × M)) (w1 : World M B),
          nof_pack_calls (calls_made w1 (deliver_all_under pack returned steps w1)) = 0
          ∧ nof_push_pdu_calls (calls_made w1 (deliver_all_under pack returned steps w1)) = 0
          ∧ nof_pack_calls (calls_made w1 (deliver_all_under pack handed steps w1)) = 0
          ∧ nof_push_pdu_calls (calls_made w1 (deliver_all_under pack handed steps w1)) = 0 := by
  refine ⟨.endpoint cu, .endpoint du, ?_, ?_, rfl, rfl, ?_⟩
  · simp [f1c_gateway_local_connector.handle_du_connection_request, hatt, hdis, World.record, hcu]
  · simp [f1c_gateway_local_connector.handle_du_connection_request, hatt, hdis, World.record,
      calls_made, handler_calls]
  · intro steps w1
    simp only [calls_made, deliver_all_under_calls, List.drop_left]
    exact ⟨(no_capture_calls_emitted_all_under_endpoint pack cu steps).1,
      (no_capture_calls_emitted_all_under_endpoint pack cu steps).2,
      (no_capture_calls_emitted_all_under_endpoint pack du steps).1,
      (no_capture_calls_emitted_all_under_endpoint pack du steps).2⟩

theorem capture_fixed_at_connection_request_witness :
    (f1c_gateway_local_connector.mk 0 (some ⟨5, fun _ => .endpoint 2⟩)).cu_cp_du_mng
        = some ⟨5, fun _ => .endpoint 2⟩
    ∧ (⟨fun _ => false, []⟩ : World Nat (List Nat)).is_write_enabled 0 = false
    ∧ ∃ returned handed,
      ((f1c_gateway_local_connector.mk 0 (some ⟨5, fun _ => .endpoint 2⟩)).handle_du_connection_request
          (.endpoint 1) (⟨fun _ => false, []⟩ : World Nat (List Nat))).1 = .ok returned
      ∧ handler_calls (calls_made (⟨fun _ => false, []⟩ : World Nat (List Nat))
          ((f1c_gateway_local_connector.mk 0
            (some ⟨5, fun _ => .endpoint 2⟩)).handle_du_connection_request
              (.endpoint 1) (⟨fun _ => false, []⟩ : World Nat (List Nat))).2)
          = [(5, handed)]
      ∧ returned = .endpoint 2 ∧ handed = .endpoint 1
      ∧ ∀ (steps : List ((Nat → Bool) × Nat)) (w1 : World Nat (List Nat)),
          nof_pack_calls (calls_made w1
            (deliver_all_under (fun m => some [m]) returned steps w1)) = 0
          ∧ nof_push_pdu_calls (calls_made w1
            (deliver_all_under (fun m => some [m]) returned steps w1)) = 0
          ∧ nof_pack_calls (calls_made w1
            (deliver_all_under (fun m => some [m]) handed steps w1)) = 0
          ∧ nof_push_pdu_calls (calls_made w1
            (deliver_all_under (fun m => some [m]) handed steps w1)) = 0 :=
  ⟨rfl, rfl, capture_fixed_at_connection_request (fun m : Nat => some [m])
    (f1c_gateway_local_connector.mk 0 (some ⟨5, fun _ => .endpoint 2⟩))
    ⟨5, fun _ => .endpoint 2⟩ 1 2 ⟨fun _ => false, []⟩ rfl rfl rfl⟩

/-! ## The E1AP gateway of the CU-CP tests -/

/-- C17: in `dummy_cu_cp_e1ap_gateway`, for every gateway (also one that has no
connection yet), `request_new_cu_up_connection` keeps the notifiers of the
earlier connections and appends the new one, raising `nof_connections` by
exactly one, when the local gateway returns a notifier, and leaves the
notifiers and `nof_connections` unchanged when it returns a null pointer.
`remove_cu_up_connection(i)` with `i < nof_connections` lowers it by exactly one
and keeps the notifier of every other connection in the same relative order:
the connections below `i` keep their index, those above move down by one.
`push_cu_cp_rx_pdu` makes exactly one call, `on_new_message(msg)` on the
notifier at the index, and leaves the earlier deliveries as they are; after a
removal it calls, on every surviving connection, that connection's own
notifier. -/
theorem connections_are_independent {G : Type} (handle_cu_up_connection_request : G → Option Nat × G)
    (gw : dummy_cu_cp_e1ap_gateway G) :
    ((gw.request_new_cu_up_connection handle_cu_up_connection_request).nof_connections
        = if (handle_cu_up_connection_request gw.local_e1ap_gw).1.isSome
          then gw.nof_connections + 1 else gw.nof_connections)
    ∧ (gw.request_new_cu_up_connection handle_cu_up_connection_request).cu_up_tx_notifiers
        = gw.cu_up_tx_notifiers ++ (handle_cu_up_connection_request gw.local_e1ap_gw).1.toList
    ∧ (∀ notifier, (handle_cu_up_connection_request gw.local_e1ap_gw).1 = some notifier →
        (gw.request_new_cu_up_connection handle_cu_up_connection_request).cu_up_tx_notifiers
            = gw.cu_up_tx_notifiers ++ [notifier]
        ∧ (gw.request_new_cu_up_connection handle_cu_up_connection_request).nof_connections
            = gw.nof_connections + 1)
    ∧ ((handle_cu_up_connection_request gw.local_e1ap_gw).1 = none →
        (gw.request_new_cu_up_connection handle_cu_up_connection_request).cu_up_tx_notifiers
            = gw.cu_up_tx_notifiers
        ∧ (gw.request_new_cu_up_connection handle_cu_up_connection_request).nof_connections
            = gw.nof_connections)
    ∧ (gw.request_new_cu_up_connection handle_cu_up_connection_request).local_e1ap_gw
        = (handle_cu_up_connection_request gw.local_e1ap_gw).2
    ∧ (∀ (j notifier : Nat) (msg : M) (delivered : List (Nat × M)),
        gw.cu_up_tx_notifiers[j]? = some notifier →
        gw.push_cu_cp_rx_pdu j msg delivered = some (delivered ++ [(notifier, msg)]))
    ∧ (∀ i, i < gw.nof_connections →
      ∃ gw1, gw.remove_cu_up_connection i = some gw1
        ∧ gw1.nof_connections + 1 = gw.nof_connections
        ∧ gw1.local_e1ap_gw = gw.local_e1ap_gw
        ∧ gw1.cu_up_tx_notifiers
            = gw.cu_up_tx_notifiers.take i ++ gw.cu_up_tx_notifiers.drop (i + 1)
        ∧ (∀ j, j < i → gw1.cu_up_tx_notifiers[j]? = gw.cu_up_tx_notifiers[j]?)
        ∧ (∀ j, i ≤ j → gw1.cu_up_tx_notifiers[j]? = gw.cu_up_tx_notifiers[j + 1]?)
        ∧ (∀ (j : Nat) (msg : M) (delivered : List (Nat × M)), j < i →
            gw1.push_cu_cp_rx_pdu j msg delivered = gw.push_cu_cp_rx_pdu j msg delivered)
        ∧ (∀ (j : Nat) (msg : M) (delivered : List (Nat × M)), i ≤ j →
            gw1.push_cu_cp_rx_pdu j msg delivered
              = gw.push_cu_cp_rx_pdu (j + 1) msg delivered)
        ∧ (∀ (j notifier : Nat) (msg : M) (delivered : List (Nat × M)), j < i →
            gw.cu_up_tx_notifiers[j]? = some notifier →
            gw1.push_cu_cp_rx_pdu j msg delivered = some (delivered ++ [(notifier, msg)]))
        ∧ (∀ (j notifier : Nat) (msg : M) (delivered : List (Nat × M)), i ≤ j →
            gw.cu_up_tx_notifiers[j + 1]? = some notifier →
            gw1.push_cu_cp_rx_pdu j msg delivered = some (delivered ++ [(notifier, msg)]))) := by
  refine ⟨?_, ?_, ?_, ?_, ?_, ?_, ?_⟩
  · cases hr : (handle_cu_up_connection_request gw.local_e1ap_gw).1 <;>
      simp [dummy_cu_cp_e1ap_gateway.request_new_cu_up_connection,
        dummy_cu_cp_e1ap_gateway.nof_connections, hr]
  · cases hr : (handle_cu_up_connection_request gw.local_e1ap_gw).1 <;>
      simp [dummy_cu_cp_e1ap_gateway.request_new_cu_up_connection, hr]
  · intro notifier hr
    simp [dummy_cu_cp_e1ap_gateway.request_new_cu_up_connection,
      dummy_cu_cp_e1ap_gateway.nof_connections, hr]
  · intro hr
    simp [dummy_cu_cp_e1ap_gateway.request_new_cu_up_connection,
      dummy_cu_cp_e1ap_gateway.nof_connections, hr]
  · cases hr : (handle_cu_up_connection_request gw.local_e1ap_gw).1 <;>
      simp [dummy_cu_cp_e1ap_gateway.request_new_cu_up_connection, hr]
  · intro j notifier msg delivered hj
    simp [dummy_cu_cp_e1ap_gateway.push_cu_cp_rx_pdu, hj]
  · intro i h
    have hlen : i < gw.cu_up_tx_notifiers.length := h
    refine ⟨⟨gw.local_e1ap_gw, gw.cu_up_tx_notifiers.eraseIdx i⟩, ?_, ?_, rfl, ?_, ?_, ?_, ?_, ?_,
      ?_, ?_⟩
    · simp [dummy_cu_cp_e1ap_gateway.remove_cu_up_connection, hlen]
    · simp only [dummy_cu_cp_e1ap_gateway.nof_connections]
      rw [List.length_eraseIdx_of_lt hlen]
      omega
    · exact List.eraseIdx_eq_take_drop_succ _ _
    · intro j hj
      exact List.getElem?_eraseIdx_of_lt _ _ _ hj
    · intro j hj
      exact List.getElem?_eraseIdx_of_ge _ _ _ hj
    · intro j msg delivered hj
      simp only [dummy_cu_cp_e1ap_gateway.push_cu_cp_rx_pdu]
      rw [List.getElem?_eraseIdx_of_lt _ _ _ hj]
    · intro j msg delivered hj
      simp only [dummy_cu_cp_e1ap_gateway.push_cu_cp_rx_pdu]
      rw [List.getElem?_eraseIdx_of_ge _ _ _ hj]
    · intro j notifier msg delivered hj hn
      simp only [dummy_cu_cp_e1ap_gateway.push_cu_cp_rx_pdu]
      rw [List.getElem?_eraseIdx_of_lt _ _ _ hj, hn]
    · intro j notifier msg delivered hj hn
      simp only [dummy_cu_cp_e1ap_gateway.push_cu_cp_rx_pdu]
      rw [List.getElem?_eraseIdx_of_ge _ _ _ hj, hn]

theorem connections_are_independent_witness :
    ((dummy_cu_cp_e1ap_gateway.mk (0 : Nat) []).request_new_cu_up_connection
        (fun g => (some (40 + g), g + 1))).cu_up_tx_notifiers = [40]
    ∧ ((dummy_cu_cp_e1ap_gateway.mk (0 : Nat) [10, 20, 30]).request_new_cu_up_connection
        (fun g => (none, g + 1))).nof_connections = 3
    ∧ 1 < (dummy_cu_cp_e1ap_gateway.mk (0 : Nat) [10, 20, 30]).nof_connections
    ∧ (dummy_cu_cp_e1ap_gateway.mk (0 : Nat) [10, 20, 30]).remove_cu_up_connection 1
        = some ⟨0, [10, 30]⟩
    ∧ (dummy_cu_cp_e1ap_gateway.mk (0 : Nat) [10, 30]).push_cu_cp_rx_pdu 1 (7 : Nat) [(10, 6)]
        = some [(10, 6), (30, 7)]
    ∧ ∃ gw1, (dummy_cu_cp_e1ap_gateway.mk (0 : Nat) [10, 20, 30]).remove_cu_up_connection 1
        = some gw1 ∧ gw1.nof_connections + 1 = 3 :=
  ⟨(@connections_are_independent Nat Nat (fun g => (some (40 + g), g + 1))
      (dummy_cu_cp_e1ap_gateway.mk (0 : Nat) [])).2.1,
    (@connections_are_independent Nat Nat (fun g => (none, g + 1))
      (dummy_cu_cp_e1ap_gateway.mk (0 : Nat) [10, 20, 30])).1,
    by decide, rfl, rfl,
    (@connections_are_independent Nat Nat (fun g => (some (40 + g), g + 1))
      (dummy_cu_cp_e1ap_gateway.mk (0 : Nat) [10, 20, 30])).2.2.2.2.2.2 1 (by decide)
      |>.imp (fun _ h => ⟨h.1, h.2.1⟩)⟩

end srsran
